import Mathlib

/-!
Shallow embedding of the extensible integer-enumeration pattern of the
`twilight-model` crate (files `activity_type.rs`, `premium_tier.rs`,
`verification_level.rs`, `event_type.rs`, `connection_visibility.rs`,
`premium_type.rs`, `scheduled_event/mod.rs`), and proofs of the spec's
properties P1-P5, INV1-INV3 and scenarios about that pattern.

Each enumeration type is a single-field wrapper around a `u8`; `u8` is
modelled as `Nat`, with the range bound `v < 256` carried as a hypothesis
in the theorems that quantify over u8 values.
-/

namespace Twilight

/-- Wire-level values of the JSON-based protocol, as seen by the serializer:
a number, a string, null, an array, or an object (ordered key/value list). -/
inductive Json where
  | num (n : Nat)
  | str (s : String)
  | null
  | arr (elems : List Json)
  | obj (fields : List (String × Json))

/-! Section: ActivityType (`gateway/presence/activity_type.rs`) -/

/-- Rust `pub struct ActivityType(u8)`. -/
structure ActivityType where
  val : Nat
deriving DecidableEq

namespace ActivityType

/-- Rust `pub const fn new(activity_type: u8) -> Self { Self(activity_type) }` -/
def new (activity_type : Nat) : ActivityType := ⟨activity_type⟩

/-- Rust `pub const PLAYING: Self = Self::new(0);` -/
def PLAYING : ActivityType := new 0
/-- Rust `pub const STREAMING: Self = Self::new(1);` -/
def STREAMING : ActivityType := new 1
/-- Rust `pub const LISTENING: Self = Self::new(2);` -/
def LISTENING : ActivityType := new 2
/-- Rust `pub const WATCHING: Self = Self::new(3);` -/
def WATCHING : ActivityType := new 3
/-- Rust `pub const CUSTOM: Self = Self::new(4);` -/
def CUSTOM : ActivityType := new 4
/-- Rust `pub const COMPETING: Self = Self::new(5);` -/
def COMPETING : ActivityType := new 5

/-- Rust `pub const fn get(&self) -> u8 { self.0 }` -/
def get (self : ActivityType) : Nat := self.val

/-- Rust `pub const fn name(self) -> Option<&'static str>`: match of `self`
against the associated constants, in source order, falling through to
`None`. -/
def name (self : ActivityType) : Option String :=
  if self = PLAYING then some ("PLAYING")
  else if self = STREAMING then some ("STREAMING")
  else if self = LISTENING then some ("LISTENING")
  else if self = WATCHING then some ("WATCHING")
  else if self = CUSTOM then some ("CUSTOM")
  else if self = COMPETING then some ("COMPETING")
  else none

/-- Rust `impl From<u8> for ActivityType { fn from(value: u8) -> Self { Self(value) } }` -/
def fromU8 (value : Nat) : ActivityType := ⟨value⟩

/-- Rust `impl From<ActivityType> for u8 { fn from(value: ActivityType) -> Self { value.get() } }` -/
def toU8 (value : ActivityType) : Nat := value.get

/-- Rust `impl Default for ActivityType { fn default() -> Self { Self::PLAYING } }` -/
def defaultValue : ActivityType := PLAYING

/-- The declared (name, raw value) constant table of `ActivityType`. -/
def table : List (String × Nat) :=
  [("PLAYING", 0), ("STREAMING", 1), ("LISTENING", 2),
   ("WATCHING", 3), ("CUSTOM", 4), ("COMPETING", 5)]

/-- Modelled from the spec: the derived serde `Serialize` (external derive,
not under src/; shape pinned by INV3/P5 and the in-repo `variants` test) of
a u8 newtype emits exactly the raw number on the JSON wire. -/
def serialize (self : ActivityType) : Json := .num self.val

/-- Modelled from the spec: the derived serde `Deserialize` (external
derive, not under src/) accepts any integer representable in the backing
width and constructs via the from-raw path; out-of-range or wrong-type
input is an error of the external decoder. -/
def deserialize (j : Json) : Option ActivityType :=
  match j with
  | .num n => if n < 256 then some (fromU8 n) else none
  | _ => none

end ActivityType

/-! Section: PremiumTier (`guild/premium_tier.rs`) -/

/-- Rust `pub struct PremiumTier(u8)`. -/
structure PremiumTier where
  val : Nat
deriving DecidableEq

namespace PremiumTier

/-- Rust `pub const fn new(premium_tier: u8) -> Self { Self(premium_tier) }` -/
def new (premium_tier : Nat) : PremiumTier := ⟨premium_tier⟩

/-- Rust `pub const NONE: Self = Self::new(0);` -/
def NONE : PremiumTier := new 0
/-- Rust `pub const TIER_1: Self = Self::new(1);` -/
def TIER_1 : PremiumTier := new 1
/-- Rust `pub const TIER_2: Self = Self::new(2);` -/
def TIER_2 : PremiumTier := new 2
/-- Rust `pub const TIER_3: Self = Self::new(3);` -/
def TIER_3 : PremiumTier := new 3

/-- Rust `pub const fn get(&self) -> u8 { self.0 }` -/
def get (self : PremiumTier) : Nat := self.val

/-- Rust `pub const fn name(self) -> Option<&'static str>`: match of `self`
against the associated constants, in source order. -/
def name (self : PremiumTier) : Option String :=
  if self = NONE then some ("NONE")
  else if self = TIER_1 then some ("TIER_1")
  else if self = TIER_2 then some ("TIER_2")
  else if self = TIER_3 then some ("TIER_3")
  else none

/-- Rust `impl From<u8> for PremiumTier`. -/
def fromU8 (value : Nat) : PremiumTier := ⟨value⟩

/-- Rust `impl From<PremiumTier> for u8`. -/
def toU8 (value : PremiumTier) : Nat := value.get

/-- Rust `impl Default for PremiumTier { fn default() -> Self { Self::NONE } }` -/
def defaultValue : PremiumTier := NONE

/-- The declared (name, raw value) constant table of `PremiumTier`. -/
def table : List (String × Nat) :=
  [("NONE", 0), ("TIER_1", 1), ("TIER_2", 2), ("TIER_3", 3)]

/-- Modelled from the spec: derived serde `Serialize` of the u8 newtype
emits exactly the raw number (INV3/P5; `variants` test). -/
def serialize (self : PremiumTier) : Json := .num self.val

/-- Modelled from the spec: derived serde `Deserialize` accepts any
integer representable in the backing width via the from-raw path. -/
def deserialize (j : Json) : Option PremiumTier :=
  match j with
  | .num n => if n < 256 then some (fromU8 n) else none
  | _ => none

end PremiumTier

/-! Section: VerificationLevel (`guild/verification_level.rs`) -/

/-- Rust `pub struct VerificationLevel(u8)`, with derived `Ord, PartialOrd`. -/
structure VerificationLevel where
  val : Nat
deriving DecidableEq

namespace VerificationLevel

/-- Rust `pub const fn new(verification_level: u8) -> Self { Self(verification_level) }` -/
def new (verification_level : Nat) : VerificationLevel := ⟨verification_level⟩

/-- Rust `pub const NONE: Self = Self::new(0);` -/
def NONE : VerificationLevel := new 0
/-- Rust `pub const LOW: Self = Self::new(1);` -/
def LOW : VerificationLevel := new 1
/-- Rust `pub const MEDIUM: Self = Self::new(2);` -/
def MEDIUM : VerificationLevel := new 2
/-- Rust `pub const HIGH: Self = Self::new(3);` -/
def HIGH : VerificationLevel := new 3
/-- Rust `pub const VERY_HIGH: Self = Self::new(4);` -/
def VERY_HIGH : VerificationLevel := new 4

/-- Rust `pub const fn get(&self) -> u8 { self.0 }` -/
def get (self : VerificationLevel) : Nat := self.val

/-- Rust `pub const fn name(self) -> Option<&'static str>`: match of `self`
against the associated constants, in source order. -/
def name (self : VerificationLevel) : Option String :=
  if self = NONE then some ("NONE")
  else if self = LOW then some ("LOW")
  else if self = MEDIUM then some ("MEDIUM")
  else if self = HIGH then some ("HIGH")
  else if self = VERY_HIGH then some ("VERY_HIGH")
  else none

/-- Rust `impl From<u8> for VerificationLevel`. -/
def fromU8 (value : Nat) : VerificationLevel := ⟨value⟩

/-- Rust `impl From<VerificationLevel> for u8`. -/
def toU8 (value : VerificationLevel) : Nat := value.get

/-- The declared (name, raw value) constant table of `VerificationLevel`. -/
def table : List (String × Nat) :=
  [("NONE", 0), ("LOW", 1), ("MEDIUM", 2), ("HIGH", 3), ("VERY_HIGH", 4)]

/-- Modelled from the spec: the derived `Ord`/`PartialOrd` (external derive,
not under src/) on a single-field u8 newtype compares the field, giving the
numeric order of the raw value. -/
def cmp (a b : VerificationLevel) : Ordering := compare a.val b.val

/-- Strict order induced by the derived comparison. -/
def ltRel (a b : VerificationLevel) : Prop := cmp a b = Ordering.lt

instance (a b : VerificationLevel) : Decidable (ltRel a b) := by
  unfold ltRel; infer_instance

/-- Modelled from the spec: derived serde `Serialize` of the u8 newtype
emits exactly the raw number (INV3/P5; `variants` test). -/
def serialize (self : VerificationLevel) : Json := .num self.val

/-- Modelled from the spec: derived serde `Deserialize` accepts any
integer representable in the backing width via the from-raw path. -/
def deserialize (j : Json) : Option VerificationLevel :=
  match j with
  | .num n => if n < 256 then some (fromU8 n) else none
  | _ => none

end VerificationLevel

/-! Section: AutoModerationEventType (`guild/auto_moderation/event_type.rs`) -/

/-- Rust `pub struct AutoModerationEventType(u8)`. -/
structure AutoModerationEventType where
  val : Nat
deriving DecidableEq

namespace AutoModerationEventType

/-- Rust `pub const fn new(auto_moderation_event_type: u8) -> Self` -/
def new (auto_moderation_event_type : Nat) : AutoModerationEventType :=
  ⟨auto_moderation_event_type⟩

/-- Rust `pub const MESSAGE_SEND: Self = Self::new(1);` -/
def MESSAGE_SEND : AutoModerationEventType := new 1

/-- Rust `pub const fn get(&self) -> u8 { self.0 }` -/
def get (self : AutoModerationEventType) : Nat := self.val

/-- Rust `pub const fn name(self) -> Option<&'static str>`: match of `self`
against the single associated constant. -/
def name (self : AutoModerationEventType) : Option String :=
  if self = MESSAGE_SEND then some ("MESSAGE_SEND")
  else none

/-- Rust `impl From<u8> for AutoModerationEventType`. -/
def fromU8 (value : Nat) : AutoModerationEventType := ⟨value⟩

/-- Rust `impl From<AutoModerationEventType> for u8`. -/
def toU8 (value : AutoModerationEventType) : Nat := value.get

/-- The declared (name, raw value) constant table of `AutoModerationEventType`. -/
def table : List (String × Nat) := [("MESSAGE_SEND", 1)]

/-- Modelled from the spec: derived serde `Serialize` of the u8 newtype
emits exactly the raw number (INV3/P5). -/
def serialize (self : AutoModerationEventType) : Json := .num self.val

/-- Modelled from the spec: derived serde `Deserialize` accepts any
integer representable in the backing width via the from-raw path. -/
def deserialize (j : Json) : Option AutoModerationEventType :=
  match j with
  | .num n => if n < 256 then some (fromU8 n) else none
  | _ => none

end AutoModerationEventType

/-! Section: ConnectionVisibility (`user/connection_visibility.rs`) -/

/-- Rust `pub struct ConnectionVisibility(u8)`. -/
structure ConnectionVisibility where
  val : Nat
deriving DecidableEq

namespace ConnectionVisibility

/-- Rust `pub const fn new(connection_visibility: u8) -> Self` -/
def new (connection_visibility : Nat) : ConnectionVisibility :=
  ⟨connection_visibility⟩

/-- Rust `pub const NONE: Self = Self::new(0);` -/
def NONE : ConnectionVisibility := new 0
/-- Rust `pub const EVERYONE: Self = Self::new(1);` -/
def EVERYONE : ConnectionVisibility := new 1

/-- Rust `pub const fn get(&self) -> u8 { self.0 }` -/
def get (self : ConnectionVisibility) : Nat := self.val

/-- Rust `pub const fn name(self) -> Option<&'static str>`: match of `self`
against the associated constants, in source order (`EVERYONE` first). -/
def name (self : ConnectionVisibility) : Option String :=
  if self = EVERYONE then some ("EVERYONE")
  else if self = NONE then some ("NONE")
  else none

/-- Rust `impl From<u8> for ConnectionVisibility`. -/
def fromU8 (value : Nat) : ConnectionVisibility := ⟨value⟩

/-- Rust `impl From<ConnectionVisibility> for u8`. -/
def toU8 (value : ConnectionVisibility) : Nat := value.get

/-- The declared (name, raw value) constant table of `ConnectionVisibility`. -/
def table : List (String × Nat) := [("NONE", 0), ("EVERYONE", 1)]

/-- Modelled from the spec: derived serde `Serialize` of the u8 newtype
emits exactly the raw number (INV3/P5; `variants` test). -/
def serialize (self : ConnectionVisibility) : Json := .num self.val

/-- Modelled from the spec: derived serde `Deserialize` accepts any
integer representable in the backing width via the from-raw path. -/
def deserialize (j : Json) : Option ConnectionVisibility :=
  match j with
  | .num n => if n < 256 then some (fromU8 n) else none
  | _ => none

end ConnectionVisibility

/-! Section: PremiumType (`user/premium_type.rs`) -/

/-- Rust `pub struct PremiumType(u8)`. -/
structure PremiumType where
  val : Nat
deriving DecidableEq

namespace PremiumType

/-- Rust `pub const fn new(premium_type: u8) -> Self { Self(premium_type) }` -/
def new (premium_type : Nat) : PremiumType := ⟨premium_type⟩

/-- Rust `pub const NONE: Self = Self::new(0);` -/
def NONE : PremiumType := new 0
/-- Rust `pub const NITRO_CLASSIC: Self = Self::new(1);` -/
def NITRO_CLASSIC : PremiumType := new 1
/-- Rust `pub const NITRO: Self = Self::new(2);` -/
def NITRO : PremiumType := new 2
/-- Rust `pub const NITRO_BASIC: Self = Self::new(3);` -/
def NITRO_BASIC : PremiumType := new 3

/-- Rust `pub const fn get(&self) -> u8 { self.0 }` -/
def get (self : PremiumType) : Nat := self.val

/-- Rust `pub const fn name(self) -> Option<&'static str>`: match of `self`
against the associated constants, in source order (`NITRO_BASIC` first). -/
def name (self : PremiumType) : Option String :=
  if self = NITRO_BASIC then some ("NITRO_BASIC")
  else if self = NITRO_CLASSIC then some ("NITRO_CLASSIC")
  else if self = NITRO then some ("NITRO")
  else if self = NONE then some ("NONE")
  else none

/-- Rust `impl From<u8> for PremiumType`. -/
def fromU8 (value : Nat) : PremiumType := ⟨value⟩

/-- Rust `impl From<PremiumType> for u8`. -/
def toU8 (value : PremiumType) : Nat := value.get

/-- The declared (name, raw value) constant table of `PremiumType`. -/
def table : List (String × Nat) :=
  [("NONE", 0), ("NITRO_CLASSIC", 1), ("NITRO", 2), ("NITRO_BASIC", 3)]

/-- Modelled from the spec: derived serde `Serialize` of the u8 newtype
emits exactly the raw number (INV3/P5; `variants` test). -/
def serialize (self : PremiumType) : Json := .num self.val

/-- Modelled from the spec: derived serde `Deserialize` accepts any
integer representable in the backing width via the from-raw path. -/
def deserialize (j : Json) : Option PremiumType :=
  match j with
  | .num n => if n < 256 then some (fromU8 n) else none
  | _ => none

end PremiumType

/-! Section: EntityType, PrivacyLevel, Status (`guild/scheduled_event/mod.rs`)

Their `name` and associated constants are in the source; `new`, `get`,
the `From` conversions, serde and `Debug` come from the `impl_typed!`
macro, repository code that is not under src/, so those operations are
modelled from the spec's Enumeration Value Core contract. -/

/-- Rust `pub struct EntityType(u8)`. -/
structure EntityType where
  val : Nat
deriving DecidableEq

namespace EntityType

/-- Modelled from the spec: `impl_typed!(EntityType, u8)` (macro not under
src/) generates `new`, which per the spec's `from_raw` stores the value
unchanged, total and non-failing. -/
def new (value : Nat) : EntityType := ⟨value⟩

/-- Rust `pub const STAGE_INSTANCE: Self = Self::new(1);` -/
def STAGE_INSTANCE : EntityType := new 1
/-- Rust `pub const VOICE: Self = Self::new(2);` -/
def VOICE : EntityType := new 2
/-- Rust `pub const EXTERNAL: Self = Self::new(3);` -/
def EXTERNAL : EntityType := new 3

/-- Modelled from the spec: `impl_typed!` generates `get`, the spec's
`raw`, returning the stored value unchanged. -/
def get (self : EntityType) : Nat := self.val

/-- Rust `pub const fn name(self) -> Option<&'static str>`: match of `self`
against the associated constants, in source order (`EXTERNAL` first). -/
def name (self : EntityType) : Option String :=
  if self = EXTERNAL then some ("EXTERNAL")
  else if self = STAGE_INSTANCE then some ("STAGE_INSTANCE")
  else if self = VOICE then some ("VOICE")
  else none

/-- Modelled from the spec: `impl_typed!` generates `From<u8>`, the
from-raw path, storing the value unchanged. -/
def fromU8 (value : Nat) : EntityType := ⟨value⟩

/-- Modelled from the spec: `impl_typed!` generates `From<EntityType> for
u8`, extracting the raw value. -/
def toU8 (value : EntityType) : Nat := value.get

/-- The declared (name, raw value) constant table of `EntityType`. -/
def table : List (String × Nat) :=
  [("STAGE_INSTANCE", 1), ("VOICE", 2), ("EXTERNAL", 3)]

/-- Modelled from the spec: serde `Serialize` of the u8 newtype emits
exactly the raw number (INV3/P5; the `scheduled_event` test shows
`Token::U8`). -/
def serialize (self : EntityType) : Json := .num self.val

/-- Modelled from the spec: serde `Deserialize` accepts any integer
representable in the backing width via the from-raw path. -/
def deserialize (j : Json) : Option EntityType :=
  match j with
  | .num n => if n < 256 then some (fromU8 n) else none
  | _ => none

end EntityType

/-- Rust `pub struct PrivacyLevel(u8)`. -/
structure PrivacyLevel where
  val : Nat
deriving DecidableEq

namespace PrivacyLevel

/-- Modelled from the spec: `impl_typed!(PrivacyLevel, u8)` generates
`new`, the spec's total `from_raw`, storing the value unchanged. -/
def new (value : Nat) : PrivacyLevel := ⟨value⟩

/-- Rust `pub const GUILD_ONLY: Self = Self::new(2);` -/
def GUILD_ONLY : PrivacyLevel := new 2

/-- Modelled from the spec: `impl_typed!` generates `get`, the spec's
`raw`, returning the stored value unchanged. -/
def get (self : PrivacyLevel) : Nat := self.val

/-- Rust `pub const fn name(self) -> Option<&'static str>`: match of `self`
against the single associated constant. -/
def name (self : PrivacyLevel) : Option String :=
  if self = GUILD_ONLY then some ("GUILD_ONLY")
  else none

/-- Modelled from the spec: `impl_typed!` generates `From<u8>`, the
from-raw path. -/
def fromU8 (value : Nat) : PrivacyLevel := ⟨value⟩

/-- Modelled from the spec: `impl_typed!` generates `From<PrivacyLevel>
for u8`. -/
def toU8 (value : PrivacyLevel) : Nat := value.get

/-- The declared (name, raw value) constant table of `PrivacyLevel`. -/
def table : List (String × Nat) := [("GUILD_ONLY", 2)]

/-- Modelled from the spec: serde `Serialize` emits exactly the raw number
(INV3/P5; `scheduled_event` test). -/
def serialize (self : PrivacyLevel) : Json := .num self.val

/-- Modelled from the spec: serde `Deserialize` accepts any integer
representable in the backing width via the from-raw path. -/
def deserialize (j : Json) : Option PrivacyLevel :=
  match j with
  | .num n => if n < 256 then some (fromU8 n) else none
  | _ => none

end PrivacyLevel

/-- Rust `pub struct Status(u8)`. -/
structure Status where
  val : Nat
deriving DecidableEq

namespace Status

/-- Modelled from the spec: `impl_typed!(Status, u8)` generates `new`, the
spec's total `from_raw`, storing the value unchanged. -/
def new (value : Nat) : Status := ⟨value⟩

/-- Rust `pub const SCHEDULED: Self = Self::new(1);` -/
def SCHEDULED : Status := new 1
/-- Rust `pub const ACTIVE: Self = Self::new(2);` -/
def ACTIVE : Status := new 2
/-- Rust `pub const COMPLETED: Self = Self::new(3);` -/
def COMPLETED : Status := new 3
/-- Rust `pub const CANCELLED: Self = Self::new(4);` -/
def CANCELLED : Status := new 4

/-- Modelled from the spec: `impl_typed!` generates `get`, the spec's
`raw`, returning the stored value unchanged. -/
def get (self : Status) : Nat := self.val

/-- Rust `pub const fn name(self) -> Option<&'static str>`: match of `self`
against the associated constants, in source order (`ACTIVE` first). -/
def name (self : Status) : Option String :=
  if self = ACTIVE then some ("ACTIVE")
  else if self = SCHEDULED then some ("SCHEDULED")
  else if self = COMPLETED then some ("COMPLETED")
  else if self = CANCELLED then some ("CANCELLED")
  else none

/-- Modelled from the spec: `impl_typed!` generates `From<u8>`, the
from-raw path. -/
def fromU8 (value : Nat) : Status := ⟨value⟩

/-- Modelled from the spec: `impl_typed!` generates `From<Status> for u8`. -/
def toU8 (value : Status) : Nat := value.get

/-- The declared (name, raw value) constant table of `Status`. -/
def table : List (String × Nat) :=
  [("SCHEDULED", 1), ("ACTIVE", 2), ("COMPLETED", 3), ("CANCELLED", 4)]

/-- Modelled from the spec: serde `Serialize` emits exactly the raw number
(INV3/P5; `scheduled_event` test). -/
def serialize (self : Status) : Json := .num self.val

/-- Modelled from the spec: serde `Deserialize` accepts any integer
representable in the backing width via the from-raw path. -/
def deserialize (j : Json) : Option Status :=
  match j with
  | .num n => if n < 256 then some (fromU8 n) else none
  | _ => none

end Status

/-! Section: Debug representation

The `Debug` impls in the source choose between `f.debug_struct(T).field
("name", ..).field("value", ..).finish()` when `name()` is `Some`, and
`f.debug_tuple(T).field(..).finish()` when it is `None`. The std builders
themselves are external; the chosen shape is modelled structurally. -/

/-- Structural result of a `Debug` formatting call: a struct-style view
with named fields, or a tuple-style view with positional fields. -/
inductive DebugRepr where
  | structView (tyName : String) (fields : List (String × String))
  | tupleView (tyName : String) (fields : List String)
deriving DecidableEq

/-- Rust `impl Debug for ActivityType`: struct view with `name` and `value`
fields when `name()` is `Some`, tuple view of the raw value otherwise. -/
def ActivityType.fmtDebug (self : ActivityType) : DebugRepr :=
  match self.name with
  | some n => .structView ("ActivityType") [("name", n), ("value", toString self.val)]
  | none => .tupleView ("ActivityType") [toString self.val]

/-- Rust `impl Debug for PremiumTier`: same shape as the other enumerations. -/
def PremiumTier.fmtDebug (self : PremiumTier) : DebugRepr :=
  match self.name with
  | some n => .structView ("PremiumTier") [("name", n), ("value", toString self.val)]
  | none => .tupleView ("PremiumTier") [toString self.val]

/-- Rust `impl Debug for VerificationLevel`. -/
def VerificationLevel.fmtDebug (self : VerificationLevel) : DebugRepr :=
  match self.name with
  | some n => .structView ("VerificationLevel") [("name", n), ("value", toString self.val)]
  | none => .tupleView ("VerificationLevel") [toString self.val]

/-- Rust `impl Debug for AutoModerationEventType`. -/
def AutoModerationEventType.fmtDebug (self : AutoModerationEventType) : DebugRepr :=
  match self.name with
  | some n => .structView ("AutoModerationEventType") [("name", n), ("value", toString self.val)]
  | none => .tupleView ("AutoModerationEventType") [toString self.val]

/-- Rust `impl Debug for ConnectionVisibility`. -/
def ConnectionVisibility.fmtDebug (self : ConnectionVisibility) : DebugRepr :=
  match self.name with
  | some n => .structView ("ConnectionVisibility") [("name", n), ("value", toString self.val)]
  | none => .tupleView ("ConnectionVisibility") [toString self.val]

/-- Rust `impl Debug for PremiumType`. -/
def PremiumType.fmtDebug (self : PremiumType) : DebugRepr :=
  match self.name with
  | some n => .structView ("PremiumType") [("name", n), ("value", toString self.val)]
  | none => .tupleView ("PremiumType") [toString self.val]

/-- Modelled from the spec: `impl_typed!` generates the same `Debug` shape
for `EntityType` (structured name/value view when named, raw tuple view
otherwise). -/
def EntityType.fmtDebug (self : EntityType) : DebugRepr :=
  match self.name with
  | some n => .structView ("EntityType") [("name", n), ("value", toString self.val)]
  | none => .tupleView ("EntityType") [toString self.val]

/-- Modelled from the spec: `impl_typed!` generates the same `Debug` shape
for `PrivacyLevel`. -/
def PrivacyLevel.fmtDebug (self : PrivacyLevel) : DebugRepr :=
  match self.name with
  | some n => .structView ("PrivacyLevel") [("name", n), ("value", toString self.val)]
  | none => .tupleView ("PrivacyLevel") [toString self.val]

/-- Modelled from the spec: `impl_typed!` generates the same `Debug` shape
for `Status`. -/
def Status.fmtDebug (self : Status) : DebugRepr :=
  match self.name with
  | some n => .structView ("Status") [("name", n), ("value", toString self.val)]
  | none => .tupleView ("Status") [toString self.val]

/-! Section: GuildScheduledEvent (`guild/scheduled_event/mod.rs`)

The struct's field list, serde attributes and field order are in the
source. Its collaborator field types (`Id<..>`, `User`, `ImageHash`,
`Timestamp`) live outside src/ and are, per the spec, out-of-scope leaf
collaborators; they are modelled opaquely with a serializer each. -/

/-- Modelled from the spec: marker type for channel IDs (out-of-scope
collaborator `crate::id`). -/
structure ChannelMarker where

/-- Modelled from the spec: marker type for guild IDs. -/
structure GuildMarker where

/-- Modelled from the spec: marker type for scheduled-event IDs. -/
structure ScheduledEventMarker where

/-- Modelled from the spec: marker type for scheduled-event entity IDs. -/
structure ScheduledEventEntityMarker where

/-- Modelled from the spec: marker type for user IDs. -/
structure UserMarker where

/-- Modelled from the spec: `Id<Marker>`, an out-of-scope collaborator
wrapping a numeric snowflake; the `scheduled_event` test shows it
serializing as a string of the number. -/
structure Id (marker : Type) where
  value : Nat

/-- Modelled from the spec: `Id` serializes as the decimal string of its
value (per the `scheduled_event` test tokens). -/
def Id.serialize {marker : Type} (self : Id marker) : Json :=
  .str (toString self.value)

/-- Modelled from the spec: the `User` struct is an out-of-scope
collaborator; only its identity matters here. -/
structure User where
  id : Id UserMarker

/-- Modelled from the spec: opaque serialization of the out-of-scope
`User` collaborator. -/
def User.serialize (self : User) : Json :=
  .obj [("id", self.id.serialize)]

/-- Modelled from the spec: `ImageHash` is an out-of-scope collaborator
(image-hash formatting is explicitly out of scope); it serializes as a
string. -/
structure ImageHash where
  raw : String

/-- Modelled from the spec: opaque serialization of `ImageHash`. -/
def ImageHash.serialize (self : ImageHash) : Json := .str self.raw

/-- Modelled from the spec: `Timestamp` is an out-of-scope collaborator
(timestamp parsing is explicitly out of scope); it serializes as a
string. -/
structure Timestamp where
  raw : String

/-- Modelled from the spec: opaque serialization of `Timestamp`. -/
def Timestamp.serialize (self : Timestamp) : Json := .str self.raw

/-- Rust `pub struct EntityMetadata { pub location: Option<String> }` — no
`skip_serializing_if`, so `location` is always emitted. -/
structure EntityMetadata where
  location : Option String

/-- Modelled from the spec: derived serde `Serialize` for `EntityMetadata`
emits its single field; a `None` option without `skip_serializing_if`
serializes as null. -/
def EntityMetadata.serialize (self : EntityMetadata) : Json :=
  .obj [("location", match self.location with
    | some s => .str s
    | none => .null)]

/-- Rust `pub struct GuildScheduledEvent`, fields in source declaration order.
Fields carrying `#[serde(skip_serializing_if = "Option::is_none")]` in the
source: `channel_id`, `creator`, `creator_id`, `description`, `entity_id`,
`entity_metadata`, `image`, `scheduled_end_time`, `user_count`. -/
structure GuildScheduledEvent where
  channel_id : Option (Id ChannelMarker)
  creator : Option User
  creator_id : Option (Id UserMarker)
  description : Option String
  entity_id : Option (Id ScheduledEventEntityMarker)
  entity_metadata : Option EntityMetadata
  entity_type : EntityType
  guild_id : Id GuildMarker
  id : Id ScheduledEventMarker
  image : Option ImageHash
  name : String
  privacy_level : PrivacyLevel
  scheduled_end_time : Option Timestamp
  scheduled_start_time : Timestamp
  status : Status
  user_count : Option Nat

/-- A field under `#[serde(skip_serializing_if = "Option::is_none")]`:
emitted as a key/value pair when the option is `Some`, omitted entirely
(no key, no null) when it is `None`. -/
def optField (key : String) (j : Option Json) : List (String × Json) :=
  match j with
  | some v => [(key, v)]
  | none => []

/-- Modelled from the spec: derived serde `Serialize` for
`GuildScheduledEvent` (external derive) emits the fields in declaration
order, honoring each field's `skip_serializing_if` attribute from the
source. -/
def GuildScheduledEvent.serializeFields (e : GuildScheduledEvent) :
    List (String × Json) :=
  optField ("channel_id") (e.channel_id.map Id.serialize) ++
  optField ("creator") (e.creator.map User.serialize) ++
  optField ("creator_id") (e.creator_id.map Id.serialize) ++
  optField ("description") (e.description.map .str) ++
  optField ("entity_id") (e.entity_id.map Id.serialize) ++
  optField ("entity_metadata") (e.entity_metadata.map EntityMetadata.serialize) ++
  [("entity_type", e.entity_type.serialize)] ++
  [("guild_id", e.guild_id.serialize)] ++
  [("id", e.id.serialize)] ++
  optField ("image") (e.image.map ImageHash.serialize) ++
  [("name", .str e.name)] ++
  [("privacy_level", e.privacy_level.serialize)] ++
  optField ("scheduled_end_time") (e.scheduled_end_time.map Timestamp.serialize) ++
  [("scheduled_start_time", e.scheduled_start_time.serialize)] ++
  [("status", e.status.serialize)] ++
  optField ("user_count") (e.user_count.map .num)

/-- Serialization of a `GuildScheduledEvent` as a JSON object of the
emitted fields. -/
def GuildScheduledEvent.serialize (e : GuildScheduledEvent) : Json :=
  .obj e.serializeFields

/-- The keys emitted when serializing a `GuildScheduledEvent`. -/
def GuildScheduledEvent.serializedKeys (e : GuildScheduledEvent) : List String :=
  e.serializeFields.map Prod.fst

/-- Modelled from the spec: the derived `Hash` (external derive) of the
`ActivityType` u8 newtype feeds exactly its single raw field to the hasher, so the
hash input is determined by the raw integer alone. -/
def ActivityType.hashFeed (self : ActivityType) : Nat := self.val

/-- Modelled from the spec: the derived `Hash` (external derive) of the
`PremiumTier` u8 newtype feeds exactly its single raw field to the hasher, so the
hash input is determined by the raw integer alone. -/
def PremiumTier.hashFeed (self : PremiumTier) : Nat := self.val

/-- Modelled from the spec: the derived `Hash` (external derive) of the
`VerificationLevel` u8 newtype feeds exactly its single raw field to the hasher, so the
hash input is determined by the raw integer alone. -/
def VerificationLevel.hashFeed (self : VerificationLevel) : Nat := self.val

/-- Modelled from the spec: the derived `Hash` (external derive) of the
`AutoModerationEventType` u8 newtype feeds exactly its single raw field to the hasher, so the
hash input is determined by the raw integer alone. -/
def AutoModerationEventType.hashFeed (self : AutoModerationEventType) : Nat := self.val

/-- Modelled from the spec: the derived `Hash` (external derive) of the
`ConnectionVisibility` u8 newtype feeds exactly its single raw field to the hasher, so the
hash input is determined by the raw integer alone. -/
def ConnectionVisibility.hashFeed (self : ConnectionVisibility) : Nat := self.val

/-- Modelled from the spec: the derived `Hash` (external derive) of the
`PremiumType` u8 newtype feeds exactly its single raw field to the hasher, so the
hash input is determined by the raw integer alone. -/
def PremiumType.hashFeed (self : PremiumType) : Nat := self.val

/-- Modelled from the spec: the derived `Hash` (external derive) of the
`EntityType` u8 newtype feeds exactly its single raw field to the hasher, so the
hash input is determined by the raw integer alone. -/
def EntityType.hashFeed (self : EntityType) : Nat := self.val

/-- Modelled from the spec: the derived `Hash` (external derive) of the
`PrivacyLevel` u8 newtype feeds exactly its single raw field to the hasher, so the
hash input is determined by the raw integer alone. -/
def PrivacyLevel.hashFeed (self : PrivacyLevel) : Nat := self.val

/-- Modelled from the spec: the derived `Hash` (external derive) of the
`Status` u8 newtype feeds exactly its single raw field to the hasher, so the
hash input is determined by the raw integer alone. -/
def Status.hashFeed (self : Status) : Nat := self.val

/-- Membership in the keys emitted by an `optField`: the key appears iff it
is that field's key and the option is `Some`. -/
theorem mem_keys_optField (s k : String) (j : Option Json) :
    s ∈ (optField k j).map Prod.fst ↔ s = k ∧ j.isSome = true := by
  cases j <;> simp [optField]

/-- Name resolution of `ActivityType` returns a declared name exactly on the raw
values of the declared constant table. -/
theorem activityType_name_some_iff (v : Nat) (n : String) :
    (ActivityType.fromU8 v).name = some n ↔ (n, v) ∈ ActivityType.table := by
  unfold ActivityType.name ActivityType.fromU8 ActivityType.table ActivityType.PLAYING ActivityType.STREAMING ActivityType.LISTENING ActivityType.WATCHING ActivityType.CUSTOM ActivityType.COMPETING ActivityType.new
  split_ifs <;> simp_all [ActivityType.mk.injEq, eq_comm]

/-- Name resolution of `ActivityType` signals absence exactly off the declared
constant table. -/
theorem activityType_name_none_iff (v : Nat) :
    (ActivityType.fromU8 v).name = none ↔ ∀ m, (m, v) ∉ ActivityType.table := by
  unfold ActivityType.name ActivityType.fromU8 ActivityType.table ActivityType.PLAYING ActivityType.STREAMING ActivityType.LISTENING ActivityType.WATCHING ActivityType.CUSTOM ActivityType.COMPETING ActivityType.new
  split_ifs <;> simp_all [ActivityType.mk.injEq, eq_comm]

/-- Name resolution of `PremiumTier` returns a declared name exactly on the raw
values of the declared constant table. -/
theorem premiumTier_name_some_iff (v : Nat) (n : String) :
    (PremiumTier.fromU8 v).name = some n ↔ (n, v) ∈ PremiumTier.table := by
  unfold PremiumTier.name PremiumTier.fromU8 PremiumTier.table PremiumTier.NONE PremiumTier.TIER_1 PremiumTier.TIER_2 PremiumTier.TIER_3 PremiumTier.new
  split_ifs <;> simp_all [PremiumTier.mk.injEq, eq_comm]

/-- Name resolution of `PremiumTier` signals absence exactly off the declared
constant table. -/
theorem premiumTier_name_none_iff (v : Nat) :
    (PremiumTier.fromU8 v).name = none ↔ ∀ m, (m, v) ∉ PremiumTier.table := by
  unfold PremiumTier.name PremiumTier.fromU8 PremiumTier.table PremiumTier.NONE PremiumTier.TIER_1 PremiumTier.TIER_2 PremiumTier.TIER_3 PremiumTier.new
  split_ifs <;> simp_all [PremiumTier.mk.injEq, eq_comm]

/-- Name resolution of `VerificationLevel` returns a declared name exactly on the raw
values of the declared constant table. -/
theorem verificationLevel_name_some_iff (v : Nat) (n : String) :
    (VerificationLevel.fromU8 v).name = some n ↔ (n, v) ∈ VerificationLevel.table := by
  unfold VerificationLevel.name VerificationLevel.fromU8 VerificationLevel.table VerificationLevel.NONE VerificationLevel.LOW VerificationLevel.MEDIUM VerificationLevel.HIGH VerificationLevel.VERY_HIGH VerificationLevel.new
  split_ifs <;> simp_all [VerificationLevel.mk.injEq, eq_comm]

/-- Name resolution of `VerificationLevel` signals absence exactly off the declared
constant table. -/
theorem verificationLevel_name_none_iff (v : Nat) :
    (VerificationLevel.fromU8 v).name = none ↔ ∀ m, (m, v) ∉ VerificationLevel.table := by
  unfold VerificationLevel.name VerificationLevel.fromU8 VerificationLevel.table VerificationLevel.NONE VerificationLevel.LOW VerificationLevel.MEDIUM VerificationLevel.HIGH VerificationLevel.VERY_HIGH VerificationLevel.new
  split_ifs <;> simp_all [VerificationLevel.mk.injEq, eq_comm]

/-- Name resolution of `AutoModerationEventType` returns a declared name exactly on the raw
values of the declared constant table. -/
theorem autoModerationEventType_name_some_iff (v : Nat) (n : String) :
    (AutoModerationEventType.fromU8 v).name = some n ↔ (n, v) ∈ AutoModerationEventType.table := by
  unfold AutoModerationEventType.name AutoModerationEventType.fromU8 AutoModerationEventType.table AutoModerationEventType.MESSAGE_SEND AutoModerationEventType.new
  split_ifs <;> simp_all [AutoModerationEventType.mk.injEq, eq_comm]

/-- Name resolution of `AutoModerationEventType` signals absence exactly off the declared
constant table. -/
theorem autoModerationEventType_name_none_iff (v : Nat) :
    (AutoModerationEventType.fromU8 v).name = none ↔ ∀ m, (m, v) ∉ AutoModerationEventType.table := by
  unfold AutoModerationEventType.name AutoModerationEventType.fromU8 AutoModerationEventType.table AutoModerationEventType.MESSAGE_SEND AutoModerationEventType.new
  split_ifs <;> simp_all [AutoModerationEventType.mk.injEq, eq_comm]

/-- Name resolution of `ConnectionVisibility` returns a declared name exactly on the raw
values of the declared constant table. -/
theorem connectionVisibility_name_some_iff (v : Nat) (n : String) :
    (ConnectionVisibility.fromU8 v).name = some n ↔ (n, v) ∈ ConnectionVisibility.table := by
  unfold ConnectionVisibility.name ConnectionVisibility.fromU8 ConnectionVisibility.table ConnectionVisibility.EVERYONE ConnectionVisibility.NONE ConnectionVisibility.new
  split_ifs <;> simp_all [ConnectionVisibility.mk.injEq, eq_comm]

/-- Name resolution of `ConnectionVisibility` signals absence exactly off the declared
constant table. -/
theorem connectionVisibility_name_none_iff (v : Nat) :
    (ConnectionVisibility.fromU8 v).name = none ↔ ∀ m, (m, v) ∉ ConnectionVisibility.table := by
  unfold ConnectionVisibility.name ConnectionVisibility.fromU8 ConnectionVisibility.table ConnectionVisibility.EVERYONE ConnectionVisibility.NONE ConnectionVisibility.new
  split_ifs <;> simp_all [ConnectionVisibility.mk.injEq, eq_comm]

/-- Name resolution of `PremiumType` returns a declared name exactly on the raw
values of the declared constant table. -/
theorem premiumType_name_some_iff (v : Nat) (n : String) :
    (PremiumType.fromU8 v).name = some n ↔ (n, v) ∈ PremiumType.table := by
  unfold PremiumType.name PremiumType.fromU8 PremiumType.table PremiumType.NITRO_BASIC PremiumType.NITRO_CLASSIC PremiumType.NITRO PremiumType.NONE PremiumType.new
  split_ifs <;> simp_all [PremiumType.mk.injEq, eq_comm]

/-- Name resolution of `PremiumType` signals absence exactly off the declared
constant table. -/
theorem premiumType_name_none_iff (v : Nat) :
    (PremiumType.fromU8 v).name = none ↔ ∀ m, (m, v) ∉ PremiumType.table := by
  unfold PremiumType.name PremiumType.fromU8 PremiumType.table PremiumType.NITRO_BASIC PremiumType.NITRO_CLASSIC PremiumType.NITRO PremiumType.NONE PremiumType.new
  split_ifs <;> simp_all [PremiumType.mk.injEq, eq_comm]

/-- Name resolution of `EntityType` returns a declared name exactly on the raw
values of the declared constant table. -/
theorem entityType_name_some_iff (v : Nat) (n : String) :
    (EntityType.fromU8 v).name = some n ↔ (n, v) ∈ EntityType.table := by
  unfold EntityType.name EntityType.fromU8 EntityType.table EntityType.EXTERNAL EntityType.STAGE_INSTANCE EntityType.VOICE EntityType.new
  split_ifs <;> simp_all [EntityType.mk.injEq, eq_comm]

/-- Name resolution of `EntityType` signals absence exactly off the declared
constant table. -/
theorem entityType_name_none_iff (v : Nat) :
    (EntityType.fromU8 v).name = none ↔ ∀ m, (m, v) ∉ EntityType.table := by
  unfold EntityType.name EntityType.fromU8 EntityType.table EntityType.EXTERNAL EntityType.STAGE_INSTANCE EntityType.VOICE EntityType.new
  split_ifs <;> simp_all [EntityType.mk.injEq, eq_comm]

/-- Name resolution of `PrivacyLevel` returns a declared name exactly on the raw
values of the declared constant table. -/
theorem privacyLevel_name_some_iff (v : Nat) (n : String) :
    (PrivacyLevel.fromU8 v).name = some n ↔ (n, v) ∈ PrivacyLevel.table := by
  unfold PrivacyLevel.name PrivacyLevel.fromU8 PrivacyLevel.table PrivacyLevel.GUILD_ONLY PrivacyLevel.new
  split_ifs <;> simp_all [PrivacyLevel.mk.injEq, eq_comm]

/-- Name resolution of `PrivacyLevel` signals absence exactly off the declared
constant table. -/
theorem privacyLevel_name_none_iff (v : Nat) :
    (PrivacyLevel.fromU8 v).name = none ↔ ∀ m, (m, v) ∉ PrivacyLevel.table := by
  unfold PrivacyLevel.name PrivacyLevel.fromU8 PrivacyLevel.table PrivacyLevel.GUILD_ONLY PrivacyLevel.new
  split_ifs <;> simp_all [PrivacyLevel.mk.injEq, eq_comm]

/-- Name resolution of `Status` returns a declared name exactly on the raw
values of the declared constant table. -/
theorem status_name_some_iff (v : Nat) (n : String) :
    (Status.fromU8 v).name = some n ↔ (n, v) ∈ Status.table := by
  unfold Status.name Status.fromU8 Status.table Status.ACTIVE Status.SCHEDULED Status.COMPLETED Status.CANCELLED Status.new
  split_ifs <;> simp_all [Status.mk.injEq, eq_comm]

/-- Name resolution of `Status` signals absence exactly off the declared
constant table. -/
theorem status_name_none_iff (v : Nat) :
    (Status.fromU8 v).name = none ↔ ∀ m, (m, v) ∉ Status.table := by
  unfold Status.name Status.fromU8 Status.table Status.ACTIVE Status.SCHEDULED Status.COMPLETED Status.CANCELLED Status.new
  split_ifs <;> simp_all [Status.mk.injEq, eq_comm]

/-- C1: for every enumeration type (ActivityType, PremiumTier,
VerificationLevel, AutoModerationEventType, ConnectionVisibility,
PremiumType, EntityType, PrivacyLevel, Status) and every u8 value `v`,
constructing from `v` (via `new` or the `From<u8>` conversion) and then
extracting the raw integer back (via `get` or the `From<T> for u8`
conversion) yields exactly `v`; construction is total and never fails. -/
theorem claim_C1_roundtrip (v : Nat) (h : v < 256) :
    ((ActivityType.new v).get = v ∧ (ActivityType.fromU8 v).toU8 = v) ∧
    ((PremiumTier.new v).get = v ∧ (PremiumTier.fromU8 v).toU8 = v) ∧
    ((VerificationLevel.new v).get = v ∧ (VerificationLevel.fromU8 v).toU8 = v) ∧
    ((AutoModerationEventType.new v).get = v ∧ (AutoModerationEventType.fromU8 v).toU8 = v) ∧
    ((ConnectionVisibility.new v).get = v ∧ (ConnectionVisibility.fromU8 v).toU8 = v) ∧
    ((PremiumType.new v).get = v ∧ (PremiumType.fromU8 v).toU8 = v) ∧
    ((EntityType.new v).get = v ∧ (EntityType.fromU8 v).toU8 = v) ∧
    ((PrivacyLevel.new v).get = v ∧ (PrivacyLevel.fromU8 v).toU8 = v) ∧
    ((Status.new v).get = v ∧ (Status.fromU8 v).toU8 = v) :=
  ⟨⟨rfl, rfl⟩, ⟨rfl, rfl⟩, ⟨rfl, rfl⟩, ⟨rfl, rfl⟩, ⟨rfl, rfl⟩, ⟨rfl, rfl⟩, ⟨rfl, rfl⟩, ⟨rfl, rfl⟩, ⟨rfl, rfl⟩⟩

/-- C1 witness: the round-trip at the concrete u8 value 7. -/
theorem claim_C1_roundtrip_witness :
    (ActivityType.new 7).get = 7 ∧ (Status.fromU8 7).toU8 = 7 :=
  ⟨(claim_C1_roundtrip 7 (by decide)).1.1,
   (claim_C1_roundtrip 7 (by decide)).2.2.2.2.2.2.2.2.2⟩

/-- C2: for every u8 value `v` and every enumeration type, `name` on the
value constructed from `v` returns `Some n` iff `(n, v)` is an entry of the
type's declared constant table, and returns `None` for every other `v` —
never an error. -/
theorem claim_C2_name_soundness (v : Nat) (h : v < 256) (n : String) :
    (((ActivityType.fromU8 v).name = some n ↔ (n, v) ∈ ActivityType.table) ∧
      ((ActivityType.fromU8 v).name = none ↔ ∀ m, (m, v) ∉ ActivityType.table)) ∧
    (((PremiumTier.fromU8 v).name = some n ↔ (n, v) ∈ PremiumTier.table) ∧
      ((PremiumTier.fromU8 v).name = none ↔ ∀ m, (m, v) ∉ PremiumTier.table)) ∧
    (((VerificationLevel.fromU8 v).name = some n ↔ (n, v) ∈ VerificationLevel.table) ∧
      ((VerificationLevel.fromU8 v).name = none ↔ ∀ m, (m, v) ∉ VerificationLevel.table)) ∧
    (((AutoModerationEventType.fromU8 v).name = some n ↔ (n, v) ∈ AutoModerationEventType.table) ∧
      ((AutoModerationEventType.fromU8 v).name = none ↔ ∀ m, (m, v) ∉ AutoModerationEventType.table)) ∧
    (((ConnectionVisibility.fromU8 v).name = some n ↔ (n, v) ∈ ConnectionVisibility.table) ∧
      ((ConnectionVisibility.fromU8 v).name = none ↔ ∀ m, (m, v) ∉ ConnectionVisibility.table)) ∧
    (((PremiumType.fromU8 v).name = some n ↔ (n, v) ∈ PremiumType.table) ∧
      ((PremiumType.fromU8 v).name = none ↔ ∀ m, (m, v) ∉ PremiumType.table)) ∧
    (((EntityType.fromU8 v).name = some n ↔ (n, v) ∈ EntityType.table) ∧
      ((EntityType.fromU8 v).name = none ↔ ∀ m, (m, v) ∉ EntityType.table)) ∧
    (((PrivacyLevel.fromU8 v).name = some n ↔ (n, v) ∈ PrivacyLevel.table) ∧
      ((PrivacyLevel.fromU8 v).name = none ↔ ∀ m, (m, v) ∉ PrivacyLevel.table)) ∧
    (((Status.fromU8 v).name = some n ↔ (n, v) ∈ Status.table) ∧
      ((Status.fromU8 v).name = none ↔ ∀ m, (m, v) ∉ Status.table)) :=
  ⟨⟨activityType_name_some_iff v n, activityType_name_none_iff v⟩, ⟨premiumTier_name_some_iff v n, premiumTier_name_none_iff v⟩, ⟨verificationLevel_name_some_iff v n, verificationLevel_name_none_iff v⟩, ⟨autoModerationEventType_name_some_iff v n, autoModerationEventType_name_none_iff v⟩, ⟨connectionVisibility_name_some_iff v n, connectionVisibility_name_none_iff v⟩, ⟨premiumType_name_some_iff v n, premiumType_name_none_iff v⟩, ⟨entityType_name_some_iff v n, entityType_name_none_iff v⟩, ⟨privacyLevel_name_some_iff v n, privacyLevel_name_none_iff v⟩, ⟨status_name_some_iff v n, status_name_none_iff v⟩⟩

/-- C2 witness: at raw 2, `ActivityType` resolves to `LISTENING`; at raw 7,
`AutoModerationEventType` resolves to no name. -/
theorem claim_C2_name_soundness_witness :
    (ActivityType.fromU8 2).name = some ("LISTENING") ∧
    (AutoModerationEventType.fromU8 7).name = none :=
  ⟨(claim_C2_name_soundness 2 (by decide) ("LISTENING")).1.1.mpr (by decide),
   (claim_C2_name_soundness 7 (by decide) ("LISTENING")).2.2.2.1.2.mpr
     (by simp [AutoModerationEventType.table])⟩

/-- C3: for every u8 value `v` and every enumeration type, serializing the
value constructed from `v` emits exactly the single numeric value `v` (no
string, object, or name token), and deserializing the numeric value `v`
yields a value equal to the one constructed from `v` — including values not
present in any constant table. -/
theorem claim_C3_wire_roundtrip (v : Nat) (h : v < 256) :
    ((ActivityType.fromU8 v).serialize = Json.num v ∧
      ActivityType.deserialize (Json.num v) = some (ActivityType.fromU8 v)) ∧
    ((PremiumTier.fromU8 v).serialize = Json.num v ∧
      PremiumTier.deserialize (Json.num v) = some (PremiumTier.fromU8 v)) ∧
    ((VerificationLevel.fromU8 v).serialize = Json.num v ∧
      VerificationLevel.deserialize (Json.num v) = some (VerificationLevel.fromU8 v)) ∧
    ((AutoModerationEventType.fromU8 v).serialize = Json.num v ∧
      AutoModerationEventType.deserialize (Json.num v) = some (AutoModerationEventType.fromU8 v)) ∧
    ((ConnectionVisibility.fromU8 v).serialize = Json.num v ∧
      ConnectionVisibility.deserialize (Json.num v) = some (ConnectionVisibility.fromU8 v)) ∧
    ((PremiumType.fromU8 v).serialize = Json.num v ∧
      PremiumType.deserialize (Json.num v) = some (PremiumType.fromU8 v)) ∧
    ((EntityType.fromU8 v).serialize = Json.num v ∧
      EntityType.deserialize (Json.num v) = some (EntityType.fromU8 v)) ∧
    ((PrivacyLevel.fromU8 v).serialize = Json.num v ∧
      PrivacyLevel.deserialize (Json.num v) = some (PrivacyLevel.fromU8 v)) ∧
    ((Status.fromU8 v).serialize = Json.num v ∧
      Status.deserialize (Json.num v) = some (Status.fromU8 v)) :=
  ⟨⟨rfl, by simp [ActivityType.deserialize, h]⟩, ⟨rfl, by simp [PremiumTier.deserialize, h]⟩, ⟨rfl, by simp [VerificationLevel.deserialize, h]⟩, ⟨rfl, by simp [AutoModerationEventType.deserialize, h]⟩, ⟨rfl, by simp [ConnectionVisibility.deserialize, h]⟩, ⟨rfl, by simp [PremiumType.deserialize, h]⟩, ⟨rfl, by simp [EntityType.deserialize, h]⟩, ⟨rfl, by simp [PrivacyLevel.deserialize, h]⟩, ⟨rfl, by simp [Status.deserialize, h]⟩⟩

/-- C3 witness: the wire round-trip of `ActivityType` at the concrete u8
value 2 and of `PremiumTier` at the unnamed value 250. -/
theorem claim_C3_wire_roundtrip_witness :
    ((ActivityType.fromU8 2).serialize = Json.num 2 ∧
      ActivityType.deserialize (Json.num 2) = some (ActivityType.fromU8 2)) ∧
    PremiumTier.deserialize (Json.num 250) = some (PremiumTier.fromU8 250) :=
  ⟨(claim_C3_wire_roundtrip 2 (by decide)).1,
   (claim_C3_wire_roundtrip 250 (by decide)).2.1.2⟩

/-- C4: for every pair of u8 values and every enumeration type, the values
constructed from them are equal iff the raw integers are equal, and the
input fed to the hasher is equal iff the raw integers are equal: equality
and hashing depend only on the raw integer, so unknown raw values behave
exactly like named ones. -/
theorem claim_C4_equality_consistency (v1 v2 : Nat) (h1 : v1 < 256) (h2 : v2 < 256) :
    ((ActivityType.fromU8 v1 = ActivityType.fromU8 v2 ↔ v1 = v2) ∧
      ((ActivityType.fromU8 v1).hashFeed = (ActivityType.fromU8 v2).hashFeed ↔ v1 = v2)) ∧
    ((PremiumTier.fromU8 v1 = PremiumTier.fromU8 v2 ↔ v1 = v2) ∧
      ((PremiumTier.fromU8 v1).hashFeed = (PremiumTier.fromU8 v2).hashFeed ↔ v1 = v2)) ∧
    ((VerificationLevel.fromU8 v1 = VerificationLevel.fromU8 v2 ↔ v1 = v2) ∧
      ((VerificationLevel.fromU8 v1).hashFeed = (VerificationLevel.fromU8 v2).hashFeed ↔ v1 = v2)) ∧
    ((AutoModerationEventType.fromU8 v1 = AutoModerationEventType.fromU8 v2 ↔ v1 = v2) ∧
      ((AutoModerationEventType.fromU8 v1).hashFeed = (AutoModerationEventType.fromU8 v2).hashFeed ↔ v1 = v2)) ∧
    ((ConnectionVisibility.fromU8 v1 = ConnectionVisibility.fromU8 v2 ↔ v1 = v2) ∧
      ((ConnectionVisibility.fromU8 v1).hashFeed = (ConnectionVisibility.fromU8 v2).hashFeed ↔ v1 = v2)) ∧
    ((PremiumType.fromU8 v1 = PremiumType.fromU8 v2 ↔ v1 = v2) ∧
      ((PremiumType.fromU8 v1).hashFeed = (PremiumType.fromU8 v2).hashFeed ↔ v1 = v2)) ∧
    ((EntityType.fromU8 v1 = EntityType.fromU8 v2 ↔ v1 = v2) ∧
      ((EntityType.fromU8 v1).hashFeed = (EntityType.fromU8 v2).hashFeed ↔ v1 = v2)) ∧
    ((PrivacyLevel.fromU8 v1 = PrivacyLevel.fromU8 v2 ↔ v1 = v2) ∧
      ((PrivacyLevel.fromU8 v1).hashFeed = (PrivacyLevel.fromU8 v2).hashFeed ↔ v1 = v2)) ∧
    ((Status.fromU8 v1 = Status.fromU8 v2 ↔ v1 = v2) ∧
      ((Status.fromU8 v1).hashFeed = (Status.fromU8 v2).hashFeed ↔ v1 = v2)) :=
  ⟨⟨by simp [ActivityType.fromU8, ActivityType.mk.injEq], Iff.rfl⟩, ⟨by simp [PremiumTier.fromU8, PremiumTier.mk.injEq], Iff.rfl⟩, ⟨by simp [VerificationLevel.fromU8, VerificationLevel.mk.injEq], Iff.rfl⟩, ⟨by simp [AutoModerationEventType.fromU8, AutoModerationEventType.mk.injEq], Iff.rfl⟩, ⟨by simp [ConnectionVisibility.fromU8, ConnectionVisibility.mk.injEq], Iff.rfl⟩, ⟨by simp [PremiumType.fromU8, PremiumType.mk.injEq], Iff.rfl⟩, ⟨by simp [EntityType.fromU8, EntityType.mk.injEq], Iff.rfl⟩, ⟨by simp [PrivacyLevel.fromU8, PrivacyLevel.mk.injEq], Iff.rfl⟩, ⟨by simp [Status.fromU8, Status.mk.injEq], Iff.rfl⟩⟩

/-- C4 witness: equality consistency at the concrete pair (3, 3). -/
theorem claim_C4_equality_consistency_witness :
    ActivityType.fromU8 3 = ActivityType.fromU8 3 :=
  (claim_C4_equality_consistency 3 3 (by decide) (by decide)).1.1.mpr rfl

/-- C5: constructing a `PremiumTier` from raw 250 (not in its constant
table) succeeds: its name is `None`, it serializes to the number 250, and
deserializing 250 yields an equal value; deserializing any u8 number never
fails. -/
theorem claim_C5_unknown_premium_tier :
    (PremiumTier.new 250).name = none ∧
    (PremiumTier.new 250).serialize = Json.num 250 ∧
    PremiumTier.deserialize (Json.num 250) = some (PremiumTier.new 250) ∧
    (∀ v : Nat, v < 256 → PremiumTier.deserialize (Json.num v) = some (PremiumTier.new v)) := by
  refine ⟨by decide, rfl, by simp [PremiumTier.deserialize, PremiumTier.fromU8, PremiumTier.new], fun v hv => ?_⟩
  simp [PremiumTier.deserialize, PremiumTier.fromU8, PremiumTier.new, hv]

/-- C5 witness: the never-failing deserialization at the concrete u8
value 17. -/
theorem claim_C5_unknown_premium_tier_witness :
    PremiumTier.deserialize (Json.num 17) = some (PremiumTier.new 17) :=
  claim_C5_unknown_premium_tier.2.2.2 17 (by decide)

/-- C6: for every pair of `VerificationLevel` values, the derived strict
order holds iff the raw integers are in numeric order; in particular, the
value from raw 3 compares less than the value from raw 4 and greater than
the value from raw 2. -/
theorem claim_C6_numeric_ordering (a b : VerificationLevel) :
    (VerificationLevel.ltRel a b ↔ a.get < b.get) ∧
    VerificationLevel.ltRel (VerificationLevel.fromU8 3) (VerificationLevel.fromU8 4) ∧
    VerificationLevel.ltRel (VerificationLevel.fromU8 2) (VerificationLevel.fromU8 3) := by
  refine ⟨?_, by decide, by decide⟩
  unfold VerificationLevel.ltRel VerificationLevel.cmp VerificationLevel.get
  exact Nat.compare_eq_lt

/-- C7: the default value's raw integer equals the raw integer of the
domain-nominated default constant: `ActivityType::default()` is `PLAYING`
(raw 0) and `PremiumTier::default()` is `NONE` (raw 0). -/
theorem claim_C7_default_constants :
    ActivityType.defaultValue = ActivityType.PLAYING ∧
    ActivityType.defaultValue.get = ActivityType.PLAYING.get ∧
    ActivityType.PLAYING.get = 0 ∧
    PremiumTier.defaultValue = PremiumTier.NONE ∧
    PremiumTier.defaultValue.get = PremiumTier.NONE.get ∧
    PremiumTier.NONE.get = 0 := by
  decide

/-- C8: for every enumeration value, when `name` is `Some n` the Debug
representation is the structured view exposing both the name `n` and the
raw integer; when `name` is `None` it is the tuple view of the raw integer
alone, marking an unnamed instance. -/
theorem claim_C8_debug_shape (v : Nat) (h : v < 256) :
    ((∀ n, (ActivityType.fromU8 v).name = some n →
        (ActivityType.fromU8 v).fmtDebug =
          DebugRepr.structView ("ActivityType") [("name", n), ("value", toString v)]) ∧
      ((ActivityType.fromU8 v).name = none →
        (ActivityType.fromU8 v).fmtDebug = DebugRepr.tupleView ("ActivityType") [toString v])) ∧
    ((∀ n, (PremiumTier.fromU8 v).name = some n →
        (PremiumTier.fromU8 v).fmtDebug =
          DebugRepr.structView ("PremiumTier") [("name", n), ("value", toString v)]) ∧
      ((PremiumTier.fromU8 v).name = none →
        (PremiumTier.fromU8 v).fmtDebug = DebugRepr.tupleView ("PremiumTier") [toString v])) ∧
    ((∀ n, (VerificationLevel.fromU8 v).name = some n →
        (VerificationLevel.fromU8 v).fmtDebug =
          DebugRepr.structView ("VerificationLevel") [("name", n), ("value", toString v)]) ∧
      ((VerificationLevel.fromU8 v).name = none →
        (VerificationLevel.fromU8 v).fmtDebug = DebugRepr.tupleView ("VerificationLevel") [toString v])) ∧
    ((∀ n, (AutoModerationEventType.fromU8 v).name = some n →
        (AutoModerationEventType.fromU8 v).fmtDebug =
          DebugRepr.structView ("AutoModerationEventType") [("name", n), ("value", toString v)]) ∧
      ((AutoModerationEventType.fromU8 v).name = none →
        (AutoModerationEventType.fromU8 v).fmtDebug = DebugRepr.tupleView ("AutoModerationEventType") [toString v])) ∧
    ((∀ n, (ConnectionVisibility.fromU8 v).name = some n →
        (ConnectionVisibility.fromU8 v).fmtDebug =
          DebugRepr.structView ("ConnectionVisibility") [("name", n), ("value", toString v)]) ∧
      ((ConnectionVisibility.fromU8 v).name = none →
        (ConnectionVisibility.fromU8 v).fmtDebug = DebugRepr.tupleView ("ConnectionVisibility") [toString v])) ∧
    ((∀ n, (PremiumType.fromU8 v).name = some n →
        (PremiumType.fromU8 v).fmtDebug =
          DebugRepr.structView ("PremiumType") [("name", n), ("value", toString v)]) ∧
      ((PremiumType.fromU8 v).name = none →
        (PremiumType.fromU8 v).fmtDebug = DebugRepr.tupleView ("PremiumType") [toString v])) ∧
    ((∀ n, (EntityType.fromU8 v).name = some n →
        (EntityType.fromU8 v).fmtDebug =
          DebugRepr.structView ("EntityType") [("name", n), ("value", toString v)]) ∧
      ((EntityType.fromU8 v).name = none →
        (EntityType.fromU8 v).fmtDebug = DebugRepr.tupleView ("EntityType") [toString v])) ∧
    ((∀ n, (PrivacyLevel.fromU8 v).name = some n →
        (PrivacyLevel.fromU8 v).fmtDebug =
          DebugRepr.structView ("PrivacyLevel") [("name", n), ("value", toString v)]) ∧
      ((PrivacyLevel.fromU8 v).name = none →
        (PrivacyLevel.fromU8 v).fmtDebug = DebugRepr.tupleView ("PrivacyLevel") [toString v])) ∧
    ((∀ n, (Status.fromU8 v).name = some n →
        (Status.fromU8 v).fmtDebug =
          DebugRepr.structView ("Status") [("name", n), ("value", toString v)]) ∧
      ((Status.fromU8 v).name = none →
        (Status.fromU8 v).fmtDebug = DebugRepr.tupleView ("Status") [toString v])) :=
  ⟨⟨fun n hn => by simp only [ActivityType.fmtDebug]; rw [hn]; simp [ActivityType.fromU8], fun hn => by simp only [ActivityType.fmtDebug]; rw [hn]; simp [ActivityType.fromU8]⟩, ⟨fun n hn => by simp only [PremiumTier.fmtDebug]; rw [hn]; simp [PremiumTier.fromU8], fun hn => by simp only [PremiumTier.fmtDebug]; rw [hn]; simp [PremiumTier.fromU8]⟩, ⟨fun n hn => by simp only [VerificationLevel.fmtDebug]; rw [hn]; simp [VerificationLevel.fromU8], fun hn => by simp only [VerificationLevel.fmtDebug]; rw [hn]; simp [VerificationLevel.fromU8]⟩, ⟨fun n hn => by simp only [AutoModerationEventType.fmtDebug]; rw [hn]; simp [AutoModerationEventType.fromU8], fun hn => by simp only [AutoModerationEventType.fmtDebug]; rw [hn]; simp [AutoModerationEventType.fromU8]⟩, ⟨fun n hn => by simp only [ConnectionVisibility.fmtDebug]; rw [hn]; simp [ConnectionVisibility.fromU8], fun hn => by simp only [ConnectionVisibility.fmtDebug]; rw [hn]; simp [ConnectionVisibility.fromU8]⟩, ⟨fun n hn => by simp only [PremiumType.fmtDebug]; rw [hn]; simp [PremiumType.fromU8], fun hn => by simp only [PremiumType.fmtDebug]; rw [hn]; simp [PremiumType.fromU8]⟩, ⟨fun n hn => by simp only [EntityType.fmtDebug]; rw [hn]; simp [EntityType.fromU8], fun hn => by simp only [EntityType.fmtDebug]; rw [hn]; simp [EntityType.fromU8]⟩, ⟨fun n hn => by simp only [PrivacyLevel.fmtDebug]; rw [hn]; simp [PrivacyLevel.fromU8], fun hn => by simp only [PrivacyLevel.fmtDebug]; rw [hn]; simp [PrivacyLevel.fromU8]⟩, ⟨fun n hn => by simp only [Status.fmtDebug]; rw [hn]; simp [Status.fromU8], fun hn => by simp only [Status.fmtDebug]; rw [hn]; simp [Status.fromU8]⟩⟩

/-- C8 witness: the structured view at `ActivityType` raw 0 (named
`PLAYING`) and the tuple view at raw 9 (unnamed). -/
theorem claim_C8_debug_shape_witness :
    (ActivityType.fromU8 0).fmtDebug =
      DebugRepr.structView ("ActivityType") [("name", ("PLAYING")), ("value", toString (0 : Nat))] ∧
    (ActivityType.fromU8 9).fmtDebug = DebugRepr.tupleView ("ActivityType") [toString (9 : Nat)] :=
  ⟨(claim_C8_debug_shape 0 (by decide)).1.1 ("PLAYING") (by decide),
   (claim_C8_debug_shape 9 (by decide)).1.2 (by decide)⟩

/-- C9: for every enumeration type and u8 value, the two construction
paths agree (`new` and `From<u8>`), the two extraction paths agree (`get`
and `From<T> for u8`), and a value built via a named constant equals one
built via `new` with the same literal. -/
theorem claim_C9_path_agreement (v : Nat) (h : v < 256) :
    (ActivityType.new v = ActivityType.fromU8 v ∧ (∀ x : ActivityType, x.get = x.toU8) ∧
      ActivityType.WATCHING = ActivityType.new 3) ∧
    (PremiumTier.new v = PremiumTier.fromU8 v ∧ (∀ x : PremiumTier, x.get = x.toU8) ∧
      PremiumTier.TIER_2 = PremiumTier.new 2) ∧
    (VerificationLevel.new v = VerificationLevel.fromU8 v ∧ (∀ x : VerificationLevel, x.get = x.toU8) ∧
      VerificationLevel.MEDIUM = VerificationLevel.new 2) ∧
    (AutoModerationEventType.new v = AutoModerationEventType.fromU8 v ∧ (∀ x : AutoModerationEventType, x.get = x.toU8) ∧
      AutoModerationEventType.MESSAGE_SEND = AutoModerationEventType.new 1) ∧
    (ConnectionVisibility.new v = ConnectionVisibility.fromU8 v ∧ (∀ x : ConnectionVisibility, x.get = x.toU8) ∧
      ConnectionVisibility.EVERYONE = ConnectionVisibility.new 1) ∧
    (PremiumType.new v = PremiumType.fromU8 v ∧ (∀ x : PremiumType, x.get = x.toU8) ∧
      PremiumType.NITRO = PremiumType.new 2) ∧
    (EntityType.new v = EntityType.fromU8 v ∧ (∀ x : EntityType, x.get = x.toU8) ∧
      EntityType.EXTERNAL = EntityType.new 3) ∧
    (PrivacyLevel.new v = PrivacyLevel.fromU8 v ∧ (∀ x : PrivacyLevel, x.get = x.toU8) ∧
      PrivacyLevel.GUILD_ONLY = PrivacyLevel.new 2) ∧
    (Status.new v = Status.fromU8 v ∧ (∀ x : Status, x.get = x.toU8) ∧
      Status.COMPLETED = Status.new 3) :=
  ⟨⟨rfl, fun _ => rfl, rfl⟩, ⟨rfl, fun _ => rfl, rfl⟩, ⟨rfl, fun _ => rfl, rfl⟩, ⟨rfl, fun _ => rfl, rfl⟩, ⟨rfl, fun _ => rfl, rfl⟩, ⟨rfl, fun _ => rfl, rfl⟩, ⟨rfl, fun _ => rfl, rfl⟩, ⟨rfl, fun _ => rfl, rfl⟩, ⟨rfl, fun _ => rfl, rfl⟩⟩

/-- C9 witness: path agreement at the concrete u8 value 1. -/
theorem claim_C9_path_agreement_witness :
    ActivityType.new 1 = ActivityType.fromU8 1 :=
  (claim_C9_path_agreement 1 (by decide)).1.1

/-- C10: when a `GuildScheduledEvent` is serialized, every Option-typed
field that is `None` is omitted from the output entirely — its key does not
appear — while every required field is always emitted; an optional field's
key appears exactly when the field is `Some`. -/
theorem claim_C10_skip_none_fields (e : GuildScheduledEvent) :
    (("channel_id") ∈ e.serializedKeys ↔ e.channel_id.isSome = true) ∧
    (("creator") ∈ e.serializedKeys ↔ e.creator.isSome = true) ∧
    (("creator_id") ∈ e.serializedKeys ↔ e.creator_id.isSome = true) ∧
    (("description") ∈ e.serializedKeys ↔ e.description.isSome = true) ∧
    (("entity_id") ∈ e.serializedKeys ↔ e.entity_id.isSome = true) ∧
    (("entity_metadata") ∈ e.serializedKeys ↔ e.entity_metadata.isSome = true) ∧
    (("image") ∈ e.serializedKeys ↔ e.image.isSome = true) ∧
    (("scheduled_end_time") ∈ e.serializedKeys ↔ e.scheduled_end_time.isSome = true) ∧
    (("user_count") ∈ e.serializedKeys ↔ e.user_count.isSome = true) ∧
    ("entity_type") ∈ e.serializedKeys ∧
    ("guild_id") ∈ e.serializedKeys ∧
    ("id") ∈ e.serializedKeys ∧
    ("name") ∈ e.serializedKeys ∧
    ("privacy_level") ∈ e.serializedKeys ∧
    ("scheduled_start_time") ∈ e.serializedKeys ∧
    ("status") ∈ e.serializedKeys := by
  simp only [GuildScheduledEvent.serializedKeys, GuildScheduledEvent.serializeFields,
    List.map_append, List.mem_append, mem_keys_optField]
  simp

end Twilight
